import Mathlib

/-!
Verification of the GenAI-BI-Dashboard insight pipeline.

This file gives a shallow embedding, in Lean, of the intent-classification →
secure-execution → result-shaping pipeline of the repository:

* `src/app/chains.py` — the Safety Gate (`SafeQuerySQLDataBaseTool._run`), the
  axis-title helper (`get_axis_titles_llm`) and the chart recommendation
  (`get_ai_chart_recommendation`);
* `src/app/utils.py` — the currency heuristics (`get_column_type`,
  `is_currency_column_smart`, `format_currency`);
* `src/app/api.py` — the `/get-insight` handler (`handle_get_insight`) with its
  descriptive cache.

External collaborators (the LLM, the agent executor, the database) are modelled
as an `Oracle` of per-question outcomes; the handler additionally returns the
trace of collaborator invocations it performed, so that properties such as
"no database access occurs" become statements about the trace.

Python string operations (`strip`, `upper`, `lower`, `replace`, `split`,
`in`, `startswith`) are embedded as structural functions on `List Char` so
that every definition evaluates by kernel reduction on concrete inputs.
-/

/-! ### Python string primitives -/

/-- The whitespace set of Python's `str.strip()` / `str.split()`. -/
def pyIsSpace (c : Char) : Bool :=
  c == ' ' || c == '\t' || c == '\n' || c == '\r' || c == '\x0b' || c == '\x0c'

/-- Python `str.strip()` on the character list. -/
def trimL (s : List Char) : List Char :=
  ((s.dropWhile pyIsSpace).reverse.dropWhile pyIsSpace).reverse

/-- Python `str.upper()` (ASCII, which is all the pipeline uses). -/
def toUpperL (s : List Char) : List Char := s.map Char.toUpper

/-- Python `str.lower()` (ASCII, which is all the pipeline uses). -/
def toLowerL (s : List Char) : List Char := s.map Char.toLower

/-- Python substring test `pat in s` (second argument is the pattern). -/
def containsL (s pat : List Char) : Bool :=
  match s with
  | [] => pat.isEmpty
  | _ :: cs => pat.isPrefixOf s || containsL cs pat

/-- Python `str.replace(pat, rep)`: leftmost, non-overlapping, all occurrences.
The fuel argument makes the recursion structural; `s.length + 1` fuel is
always enough since each step consumes at least one character. -/
def replaceFuel : Nat → List Char → List Char → List Char → List Char
  | 0, s, _, _ => s
  | _ + 1, [], _, _ => []
  | n + 1, c :: cs, pat, rep =>
    if !pat.isEmpty && pat.isPrefixOf (c :: cs) then
      rep ++ replaceFuel n ((c :: cs).drop pat.length) pat rep
    else
      c :: replaceFuel n cs pat rep

/-- Python `s.replace(pat, rep)` at the string level. -/
def pyReplace (s pat rep : String) : String :=
  String.mk (replaceFuel (s.data.length + 1) s.data pat.data rep.data)

/-- Python `s.strip()` at the string level. -/
def pyTrim (s : String) : String := String.mk (trimL s.data)

/-- Python `s.lower()` at the string level. -/
def pyLower (s : String) : String := String.mk (toLowerL s.data)

/-- Python `s.split(pat)` (split on every occurrence of a non-empty pattern).
The accumulator holds the current piece reversed; fuel as in `replaceFuel`. -/
def splitOnFuel (pat : List Char) : Nat → List Char → List Char → List (List Char)
  | 0, cur, rest => [cur.reverse ++ rest]
  | n + 1, cur, rest =>
    match rest with
    | [] => [cur.reverse]
    | c :: cs =>
      if !pat.isEmpty && pat.isPrefixOf (c :: cs) then
        cur.reverse :: splitOnFuel pat n [] ((c :: cs).drop pat.length)
      else
        splitOnFuel pat n (c :: cur) cs

/-- Python `s.split(pat)` at the string level. -/
def pySplit (s pat : String) : List String :=
  (splitOnFuel pat.data (s.data.length + 1) [] s.data).map String.mk

/-- Python `s.split()` with no argument: split on whitespace runs, dropping
empty pieces.  The accumulator holds the current word reversed. -/
def wordsAux (acc : List Char) : List Char → List (List Char)
  | [] => if acc.isEmpty then [] else [acc.reverse]
  | c :: cs =>
    if pyIsSpace c then
      if acc.isEmpty then wordsAux [] cs else acc.reverse :: wordsAux [] cs
    else
      wordsAux (c :: acc) cs

/-- Python `s.split()` at the string level. -/
def pyWords (s : String) : List String := (wordsAux [] s.data).map String.mk

/-- Python `s.strip(chars)`: remove any of the given characters from both ends. -/
def pyStripChars (s : String) (cs : List Char) : String :=
  String.mk (((s.data.dropWhile (fun c => cs.contains c)).reverse.dropWhile
      (fun c => cs.contains c)).reverse)

/-! ### The Safety Gate — `SafeQuerySQLDataBaseTool._run` (src/app/chains.py, lines 41–52) -/

/-- `FORBIDDEN_KEYWORDS` of src/app/chains.py line 41, in source order. -/
def FORBIDDEN_KEYWORDS : List String :=
  ["DROP", "DELETE", "UPDATE", "INSERT", "GRANT", "REVOKE", "ALTER", "TRUNCATE", "CREATE"]

/-- `clean_query = query.strip().upper()` (chains.py line 47), as a character list. -/
def cleanQuery (query : String) : List Char := toUpperL (trimL query.data)

/-- The per-keyword test of chains.py line 49:
`f" {keyword} " in f" {clean_query} " or clean_query.startswith(keyword + " ")`.
`f" {x} "` wraps `x` in single spaces, so its character list is
`' ' :: x ++ [' ']`. -/
def gateHit (clean kw : List Char) : Bool :=
  containsL (' ' :: (clean ++ [' '])) (' ' :: (kw ++ [' '])) ||
    (kw ++ [' ']).isPrefixOf clean

/-- The deny-list scan of chains.py lines 48–50: the first keyword (in list
order) whose test fires, or `none` when the query is authorized. -/
def gateCheck (query : String) : Option String :=
  FORBIDDEN_KEYWORDS.find? (fun kw => gateHit (cleanQuery query) kw.data)

/-- The rejection message of chains.py line 50 (`\x27` is the ASCII quote). -/
def rejectionMsg (kw : String) : String :=
  "Error: The query was blocked because it contained the forbidden keyword \x27" ++ kw ++ "\x27."

/-- `SafeQuerySQLDataBaseTool._run` (chains.py lines 46–52): reject on a
deny-listed keyword, otherwise run the query against the database
(`dbResult` stands for `str(self.db.run(query))`). -/
def safeToolRun (dbResult : String → String) (query : String) : String :=
  match gateCheck query with
  | some kw => rejectionMsg kw
  | none => dbResult query

/-! ### Standalone words

The specification's notion of a deny-listed verb occurring "as a standalone
word (not a substring of an identifier)": an occurrence whose two neighbouring
characters (when they exist) are not identifier characters.  `standaloneWord`
is a decidable scanner for this notion; it is used to state the authorize
direction of the gate. -/

/-- Identifier characters of SQL/Python identifiers: alphanumerics and `_`. -/
def isIdentChar (c : Char) : Bool := c.isAlphanum || c == '_'

/-- A boundary is acceptable when absent (string end) or not an identifier
character. -/
def boundaryOk : Option Char → Bool
  | none => true
  | some c => !(isIdentChar c)

/-- `kw` occurs at the head of `s` as a standalone word, `prev` being the
character immediately before the occurrence (if any). -/
def matchHere (kw s : List Char) (prev : Option Char) : Bool :=
  decide (kw <+: s) && boundaryOk prev && boundaryOk (s.drop kw.length).head?

/-- The last character of `a`, defaulting to `prev` when `a` is empty. -/
def lastO : List Char → Option Char → Option Char
  | [], prev => prev
  | c :: cs, _ => lastO cs (some c)

/-- Scan `s` for a standalone occurrence of `kw`, with `prev` the character
just before `s` (if any). -/
def scanFrom (kw : List Char) : Option Char → List Char → Bool
  | prev, [] => matchHere kw [] prev
  | prev, c :: cs => matchHere kw (c :: cs) prev || scanFrom kw (some c) cs

/-- `kw` occurs somewhere in `s` as a standalone word. -/
def standaloneWord (kw s : List Char) : Bool := scanFrom kw none s

/-! ### Currency heuristics — src/app/utils.py -/

/-- A database schema as introspected by `extract_db_schema` (src/app/db.py):
a mapping from table name to a list of (column name, declared type) pairs. -/
abbrev Schema := List (String × List (String × String))

/-- `CURRENCY_KEYWORDS` of utils.py lines 1–3. -/
def CURRENCY_KEYWORDS : List String :=
  ["amount", "price", "cost", "revenue", "total", "spent", "sales", "income",
   "payment", "charge", "fee", "balance"]

/-- `CURRENCY_SYMBOL` of utils.py line 4. -/
def CURRENCY_SYMBOL : String := "$"

/-- The narrower keyword list of `is_currency_column_smart` (utils.py line 41). -/
def smartKeywords : List String :=
  ["amount", "price", "cost", "revenue", "payment", "charge", "fee", "balance"]

/-- The numeric declared-type set of `is_currency_column_smart` (utils.py line 41). -/
def numericTypes : List String := ["real", "numeric", "decimal", "money", "float"]

/-- `DB_SCHEMA.get(table, [])`: dictionary lookup with default, exact key match. -/
def schemaCols (schema : Schema) (table : String) : List (String × String) :=
  ((schema.find? (fun p => p.1 == table)).map (fun p => p.2)).getD []

/-- `get_column_type` (utils.py lines 29–35): the declared type, lowercased, of
the first column whose name matches case-insensitively; `""` when absent. -/
def get_column_type (schema : Schema) (table column : String) : String :=
  match (schemaCols schema table).find? (fun c => pyLower c.1 == pyLower column) with
  | some c => pyLower c.2
  | none => ""

/-- `is_currency_column` (utils.py lines 6–7). -/
def is_currency_column (col_name : String) : Bool :=
  CURRENCY_KEYWORDS.any (fun w => containsL (toLowerL col_name.data) w.data)

/-- The known-table branch of `is_currency_column_smart` (utils.py line 41):
declared type in the numeric set AND name contains a monetary keyword. -/
def smartCheck (schema : Schema) (col_name table : String) : Bool :=
  numericTypes.contains (get_column_type schema table col_name) &&
    smartKeywords.any (fun w => containsL (toLowerL col_name.data) w.data)

/-- `is_currency_column_smart` (utils.py lines 37–45).  Python's `if table:`
is falsy both for `None` and for the empty string, in which case the function
falls back to the broad name-only keyword match. -/
def is_currency_column_smart (schema : Schema) (col_name : String) (table : Option String) : Bool :=
  match table with
  | some t =>
    if t = "" then CURRENCY_KEYWORDS.any (fun w => containsL (toLowerL col_name.data) w.data)
    else smartCheck schema col_name t
  | none => CURRENCY_KEYWORDS.any (fun w => containsL (toLowerL col_name.data) w.data)

/-- Python's built-in `round` on a rational: round half to even. -/
def pyRound (q : ℚ) : ℤ :=
  if q - ⌊q⌋ < 1 / 2 then ⌊q⌋
  else if 1 / 2 < q - ⌊q⌋ then ⌊q⌋ + 1
  else if ⌊q⌋ % 2 = 0 then ⌊q⌋ else ⌊q⌋ + 1

/-- Insert a `,` after every third character of a least-significant-first digit
list (the grouping of Python's `f"{n:,}"`); fuel keeps the recursion structural. -/
def groupFuel : Nat → List Char → List Char
  | 0, ds => ds
  | n + 1, ds => if ds.length ≤ 3 then ds else ds.take 3 ++ ',' :: groupFuel n (ds.drop 3)

/-- Python `f"{n:,}"` for a natural number: decimal digits with thousands separators. -/
def commaSep (n : ℕ) : String :=
  String.mk (groupFuel (Nat.toDigits 10 n).reverse.length (Nat.toDigits 10 n).reverse).reverse

/-- Python `f"{z:,}"` for an integer: a minus sign followed by the grouped digits
of the absolute value. -/
def intComma (z : ℤ) : String :=
  if z < 0 then "-" ++ commaSep z.natAbs else commaSep z.natAbs

/-- `format_currency` (utils.py lines 9–13) applied to a numeric value:
`f"{CURRENCY_SYMBOL}{round(float(val)):,}"`.  (In the api handler the call is
guarded by `isinstance(val, (int, float))`, so only numeric values reach it;
the numeric value, with Python's `bool` counted as numeric, is the argument.) -/
def format_currency (q : ℚ) : String := CURRENCY_SYMBOL ++ intComma (pyRound q)

/-- A scalar cell of a result row.  Python's `bool` is a subclass of `int`,
which is why it is a separate constructor: `isinstance(v, (int, float))` is
true for it. -/
inductive Cell where
  | i (z : ℤ) : Cell
  | f (q : ℚ) : Cell
  | s (v : String) : Cell
  | b (v : Bool) : Cell
  | null : Cell
deriving DecidableEq

/-- `isinstance(v, (int, float))` together with `float(v)`: the numeric value of
a cell, or `none` for non-numeric cells.  `True` converts to 1 and `False` to 0. -/
def asNum : Cell → Option ℚ
  | Cell.i z => some z
  | Cell.f q => some q
  | Cell.b bv => some (if bv then 1 else 0)
  | Cell.s _ => none
  | Cell.null => none

/-- The per-cell step of the formatting loop in `handle_get_insight`
(api.py lines 49–52): currency-format numeric values of currency columns,
pass everything else through. -/
def formatCell (schema : Schema) (table : Option String) (k : String) (v : Cell) : Cell :=
  if is_currency_column_smart schema k table then
    match asNum v with
    | some q => Cell.s (format_currency q)
    | none => v
  else v

/-! ### Presentation helpers — src/app/chains.py lines 108–161 -/

/-- The observable outcome of the axis-title LLM call followed by
`JsonOutputParser`: an exception, a parsed non-dict value, or a parsed dict. -/
inductive AxisOutcome where
  | err : AxisOutcome
  | nonObj : AxisOutcome
  | obj (entries : List (String × String)) : AxisOutcome
deriving DecidableEq

/-- Python `"k" in d` for a dict. -/
def hasKey (d : List (String × String)) (k : String) : Bool := d.any (fun p => p.1 == k)

/-- The fallback of `get_axis_titles_llm` (chains.py line 130):
`columns[0] if columns else "X"` and `columns[1] if len(columns) > 1 else "Y"`. -/
def axisFallback (columns : List String) : List (String × String) :=
  [("x", columns.getD 0 "X"), ("y", columns.getD 1 "Y")]

/-- `get_axis_titles_llm` (chains.py lines 118–130): return the parsed dict when
it is a dict containing both `"x"` and `"y"`, otherwise the fallback. -/
def get_axis_titles_llm (outcome : AxisOutcome) (columns : List String) : List (String × String) :=
  match outcome with
  | AxisOutcome.obj d => if hasKey d "x" && hasKey d "y" then d else axisFallback columns
  | _ => axisFallback columns

/-- The outcomes on which `get_axis_titles_llm` falls back: an exception, a
non-dict parse, or a dict missing `"x"` or `"y"`. -/
def axisFailed : AxisOutcome → Bool
  | AxisOutcome.obj d => !(hasKey d "x" && hasKey d "y")
  | _ => true

/-- The recognized chart labels of `get_ai_chart_recommendation` (chains.py line 158). -/
def recognizedCharts : List String := ["kpi", "bar", "pie", "table"]

/-- `get_ai_chart_recommendation` (chains.py lines 142–160) applied to the raw
LLM content string: `content.strip().lower()`, defaulting to `"table"` when the
result is not a recognized label. -/
def get_ai_chart_recommendation (content : String) : String :=
  if recognizedCharts.contains (String.mk (toLowerL (trimL content.data))) then
    String.mk (toLowerL (trimL content.data))
  else "table"

/-! ### The `/get-insight` handler — src/app/api.py -/

/-- A result row as built by `dict(zip(column_names, row))`: an ordered
association list with unique keys. -/
abbrev Row := List (String × Cell)

/-- Python dict insertion: overwrite in place when the key exists, append otherwise. -/
def dictInsert (d : Row) (k : String) (v : Cell) : Row :=
  if d.any (fun p => p.1 == k) then d.map (fun p => if p.1 == k then (k, v) else p)
  else d ++ [(k, v)]

/-- `dict(zip(column_names, row))` (api.py line 40): pair columns with values
(truncating to the shorter), later duplicates overwriting earlier ones. -/
def mkRow (cols : List String) (vals : List Cell) : Row :=
  (cols.zip vals).foldl (fun d kv => dictInsert d kv.1 kv.2) []

/-- The table-name inference of api.py lines 45–48: when `"from"` occurs in the
lowercased SQL, take the first whitespace token after the first occurrence and
strip `,`/`;` from its ends.  When nothing follows `"from"`, Python's `[0]`
indexing raises `IndexError` (modelled as `Except.error`). -/
def inferTable (sql : String) : Except Unit (Option String) :=
  if containsL (toLowerL sql.data) "from".data then
    match pyWords ((pySplit (pyLower sql) "from").getD 1 "") with
    | [] => Except.error ()
    | tok :: _ => Except.ok (some (pyStripChars tok [',' , ';']))
  else Except.ok none

/-- The formatting loop of api.py lines 41–54 over all rows.  The table
inference runs inside the cell loop, so its `IndexError` fires exactly when
some row has at least one cell; with no error, every cell is formatted. -/
def formatRows (schema : Schema) (sql : String) (rows : List Row) : Except Unit (List Row) :=
  if rows.all (fun r => r.isEmpty) then Except.ok rows
  else
    match inferTable sql with
    | Except.error _ => Except.error ()
    | Except.ok tbl =>
      Except.ok (rows.map (fun r => r.map (fun kv => (kv.1, formatCell schema tbl kv.1 kv.2))))

/-- The markdown stripping of api.py line 33:
`sql.strip().replace("```sqlite", "").replace("```", "").replace("```sqlite", "").strip()`. -/
def stripMarkdown (s : String) : String :=
  pyTrim (pyReplace (pyReplace (pyReplace (pyTrim s) "```sqlite" "") "```" "") "```sqlite" "")

/-- An entry of `DESCRIPTIVE_CACHE` (api.py lines 74–77). -/
structure CacheEntry where
  narrative : String
  bullets : List String
deriving DecidableEq

/-- `DESCRIPTIVE_CACHE`: a dict from question text to entry. -/
abbrev Cache := List (String × CacheEntry)

/-- `question in DESCRIPTIVE_CACHE` / `DESCRIPTIVE_CACHE[question]`:
exact-string key lookup. -/
def cacheGet (c : Cache) (q : String) : Option CacheEntry :=
  (c.find? (fun p => p.1 == q)).map (fun p => p.2)

/-- `DESCRIPTIVE_CACHE[question] = entry`: dict assignment. -/
def cachePut (c : Cache) (q : String) (e : CacheEntry) : Cache :=
  if c.any (fun p => p.1 == q) then c.map (fun p => if p.1 == q then (q, e) else p)
  else c ++ [(q, e)]

/-- One invocation of an external collaborator performed by the handler. -/
inductive Call where
  | llmClassify : Call
  | llmGenSql : Call
  | dbRun (sql : String) : Call
  | dbExec (sql : String) : Call
  | llmNarrative : Call
  | llmAxis : Call
  | llmChart : Call
  | agentInvoke : Call
deriving DecidableEq

/-- The observable outcome of `db.run` + `ast.literal_eval` + the column-name
lookup: a database/parse error (api.py lines 34–37), or column names
(line 39) with row tuples (line 37). -/
inductive DbOutcome where
  | err (msg : String) : DbOutcome
  | rows (cols : List String) (data : List (List Cell)) : DbOutcome

/-- Per-question outcomes of the external collaborators.  `classify` is the
result of `classification_chain.invoke(...).get("intent")` (an exception, or
the parsed value of the `"intent"` key — `none` when the key is absent);
`narrative` is `insight.get("summary", ...)` / `insight.get("bullets", ...)`
material; `agent` is `agent_executor.invoke(...).get("output", "")` material;
`chart` is the raw LLM content string for the chart recommendation, a function
of the question and the formatted result data. -/
structure Oracle where
  classify : String → Except String (Option String)
  genSql : String → Except String String
  db : String → DbOutcome
  narrative : String → List Row → Except String (Option String × Option (List String))
  agent : String → Except String (Option String)
  axis : String → AxisOutcome
  chart : String → List Row → String

/-- A value of the JSON response envelope. -/
inductive RVal where
  | str (v : String) : RVal
  | rows (v : List Row) : RVal
  | strList (v : List String) : RVal
  | obj (v : List (String × String)) : RVal
  | null : RVal
deriving DecidableEq

/-- A response envelope: an ordered dict from field name to value. -/
abbrev Resp := List (String × RVal)

/-- The field names of a response, in order. -/
def respKeys (r : Resp) : List String := r.map Prod.fst

/-- Field lookup in a response. -/
def respGet (r : Resp) (k : String) : Option RVal :=
  (r.find? (fun p => p.1 == k)).map (fun p => p.2)

/-- The error-message wrapper of api.py line 81. -/
def pyErrMsg (e : String) : String :=
  "An error occurred while processing your request: " ++ e

/-- The block message of api.py line 29. -/
def blockedMsg : String :=
  "Error: This request has been blocked as it was identified as potentially destructive."

/-- The empty-result summary of api.py line 60. -/
def noResultsMsg : String := "The query executed successfully but returned no results."

/-- `str(e)` of the `IndexError` raised by the table inference. -/
def indexErrText : String := "list index out of range"

/-- `axis_titles = {"x": "", "y": ""}` (api.py lines 62 and 78). -/
def emptyAxes : List (String × String) := [("x", ""), ("y", "")]

/-- The exception envelope of api.py line 82. -/
def errEnvelope (q sql emsg : String) : Resp :=
  [("query", RVal.str q), ("sql", RVal.str sql), ("data", RVal.rows []),
   ("narrative", RVal.str emsg), ("chartType", RVal.str "none"), ("error", RVal.str emsg)]

/-- The blocked-destructive envelope of api.py line 30. -/
def blockedEnvelope (q : String) : Resp :=
  [("query", RVal.str q), ("sql", RVal.str "BLOCKED"), ("data", RVal.rows []),
   ("narrative", RVal.str blockedMsg), ("chartType", RVal.str "none"),
   ("error", RVal.str blockedMsg)]

/-- The success envelope of api.py lines 84–93. -/
def successEnvelope (q sql : String) (data : List Row) (narrative : String)
    (bullets : List String) (chartType : String) (axes : List (String × String)) : Resp :=
  [("query", RVal.str q), ("sql", RVal.str sql), ("data", RVal.rows data),
   ("narrative", RVal.str narrative), ("bullets", RVal.strList bullets),
   ("chartType", RVal.str chartType), ("axisTitles", RVal.obj axes), ("error", RVal.null)]

/-- The field names of the success envelope. -/
def successKeys : List String :=
  ["query", "sql", "data", "narrative", "bullets", "chartType", "axisTitles", "error"]

/-- The field names of the blocked and exception envelopes. -/
def shortKeys : List String :=
  ["query", "sql", "data", "narrative", "chartType", "error"]

/-- The `intent == "data_query"` branch of `handle_get_insight`
(api.py lines 31–62): synthesize SQL, strip markdown, run it directly via
`db.run` (line 34 — with no Safety Gate check), fetch column names via a second
execution (line 39), format rows, produce narrative and axis titles.  Any
exception lands in the envelope of line 82. -/
def dataPath (o : Oracle) (schema : Schema) (cache : Cache) (q : String) :
    Resp × Cache × List Call :=
  match o.genSql q with
  | Except.error e =>
    (errEnvelope q "N/A" (pyErrMsg e), cache, [Call.llmClassify, Call.llmGenSql])
  | Except.ok raw =>
    match o.db (stripMarkdown raw) with
    | DbOutcome.err m =>
      (errEnvelope q (stripMarkdown raw) (pyErrMsg m), cache,
       [Call.llmClassify, Call.llmGenSql, Call.dbRun (stripMarkdown raw)])
    | DbOutcome.rows cols data =>
      if data.isEmpty then
        (successEnvelope q (stripMarkdown raw) [] noResultsMsg []
           (get_ai_chart_recommendation (o.chart q [])) emptyAxes, cache,
         [Call.llmClassify, Call.llmGenSql, Call.dbRun (stripMarkdown raw), Call.llmChart])
      else
        match formatRows schema (stripMarkdown raw) (data.map (mkRow cols)) with
        | Except.error _ =>
          (errEnvelope q (stripMarkdown raw) (pyErrMsg indexErrText), cache,
           [Call.llmClassify, Call.llmGenSql, Call.dbRun (stripMarkdown raw),
            Call.dbExec (stripMarkdown raw)])
        | Except.ok fdata =>
          match o.narrative q fdata with
          | Except.error e =>
            (errEnvelope q (stripMarkdown raw) (pyErrMsg e), cache,
             [Call.llmClassify, Call.llmGenSql, Call.dbRun (stripMarkdown raw),
              Call.dbExec (stripMarkdown raw), Call.llmNarrative])
          | Except.ok pair =>
            (successEnvelope q (stripMarkdown raw) fdata (pair.1.getD "") (pair.2.getD [])
               (get_ai_chart_recommendation (o.chart q fdata))
               (get_axis_titles_llm (o.axis q) cols), cache,
             [Call.llmClassify, Call.llmGenSql, Call.dbRun (stripMarkdown raw),
              Call.dbExec (stripMarkdown raw), Call.llmNarrative, Call.llmAxis, Call.llmChart])

/-- The `else` branch of `handle_get_insight` (api.py lines 63–78), taken for
every intent other than `destructive_request` and `data_query`: serve the
narrative and bullets from `DESCRIPTIVE_CACHE` on a hit, otherwise invoke the
agent and store its answer. -/
def descriptivePath (o : Oracle) (cache : Cache) (q : String) : Resp × Cache × List Call :=
  match cacheGet cache q with
  | some entry =>
    (successEnvelope q "N/A" [] entry.narrative entry.bullets
       (get_ai_chart_recommendation (o.chart q [])) emptyAxes, cache,
     [Call.llmClassify, Call.llmChart])
  | none =>
    match o.agent q with
    | Except.error e =>
      (errEnvelope q "N/A" (pyErrMsg e), cache, [Call.llmClassify, Call.agentInvoke])
    | Except.ok out =>
      (successEnvelope q "N/A" [] (out.getD "") []
         (get_ai_chart_recommendation (o.chart q [])) emptyAxes,
       cachePut cache q ⟨out.getD "", []⟩,
       [Call.llmClassify, Call.agentInvoke, Call.llmChart])

/-- `handle_get_insight` (api.py lines 18–93).  Returns the response envelope,
the cache after the request, and the trace of collaborator invocations. -/
def handle_get_insight (o : Oracle) (schema : Schema) (cache : Cache) (q : String) :
    Resp × Cache × List Call :=
  match o.classify q with
  | Except.error e => (errEnvelope q "N/A" (pyErrMsg e), cache, [Call.llmClassify])
  | Except.ok intent =>
    if intent == some "destructive_request" then
      (blockedEnvelope q, cache, [Call.llmClassify])
    else if intent == some "data_query" then dataPath o schema cache q
    else descriptivePath o cache q

deriving instance DecidableEq for Except

/-! ### Concrete schemas and oracles used to instantiate the theorems -/

/-- A sample schema in the shape produced by `extract_db_schema` (src/app/db.py):
an `orders` table with an `id`, a `REAL` `total_amount` and an integer `quantity`. -/
def ordersSchema : Schema :=
  [("orders", [("id", "INTEGER"), ("total_amount", "REAL"), ("quantity", "INTEGER")])]

/-- Collaborator outcomes where the Classifier answers `data_query` but the
synthesizer produces a destructive statement. -/
def c1Oracle : Oracle where
  classify := fun _ => Except.ok (some "data_query")
  genSql := fun _ => Except.ok "DELETE FROM orders"
  db := fun _ => DbOutcome.err "no such table"
  narrative := fun _ _ => Except.ok (none, none)
  agent := fun _ => Except.ok none
  axis := fun _ => AxisOutcome.err
  chart := fun _ _ => ""

/-- Collaborator outcomes where the Classifier answers `destructive_request`. -/
def c3Oracle : Oracle where
  classify := fun _ => Except.ok (some "destructive_request")
  genSql := fun _ => Except.ok ""
  db := fun _ => DbOutcome.err ""
  narrative := fun _ _ => Except.ok (none, none)
  agent := fun _ => Except.ok none
  axis := fun _ => AxisOutcome.err
  chart := fun _ _ => ""

/-- Collaborator outcomes where classification parses to a label outside the
three expected intent labels. -/
def c4Oracle : Oracle where
  classify := fun _ => Except.ok (some "banana")
  genSql := fun _ => Except.ok "SELECT 1"
  db := fun _ => DbOutcome.rows [] []
  narrative := fun _ _ => Except.ok (some "", some [])
  agent := fun _ => Except.ok (some "the tables are orders and users")
  axis := fun _ => AxisOutcome.err
  chart := fun _ _ => "table"

/-- Collaborator outcomes where the classification call raises (unparseable
model output). -/
def c4ErrOracle : Oracle where
  classify := fun _ => Except.error "Invalid json output"
  genSql := fun _ => Except.ok ""
  db := fun _ => DbOutcome.err ""
  narrative := fun _ _ => Except.ok (none, none)
  agent := fun _ => Except.ok none
  axis := fun _ => AxisOutcome.err
  chart := fun _ _ => ""

/-- Collaborator outcomes for a well-behaved `data_query` request. -/
def c6Oracle : Oracle where
  classify := fun _ => Except.ok (some "data_query")
  genSql := fun _ => Except.ok "SELECT month, sales FROM monthly_sales"
  db := fun _ => DbOutcome.rows [] []
  narrative := fun _ _ => Except.ok (some "", some [])
  agent := fun _ => Except.ok none
  axis := fun _ => AxisOutcome.err
  chart := fun _ _ => "bar"

/-- Collaborator outcomes for a well-behaved descriptive question. -/
def c6DescOracle : Oracle where
  classify := fun _ => Except.ok (some "descriptive_question")
  genSql := fun _ => Except.ok ""
  db := fun _ => DbOutcome.err ""
  narrative := fun _ _ => Except.ok (none, none)
  agent := fun _ => Except.ok (some "There are two tables: orders and users.")
  axis := fun _ => AxisOutcome.err
  chart := fun _ _ => "table"

/-- Collaborator outcomes where the Classifier answers `destructive_request`
(used to exhibit the blocked envelope's field set). -/
def c9Oracle : Oracle where
  classify := fun _ => Except.ok (some "destructive_request")
  genSql := fun _ => Except.ok ""
  db := fun _ => DbOutcome.err ""
  narrative := fun _ _ => Except.ok (none, none)
  agent := fun _ => Except.ok none
  axis := fun _ => AxisOutcome.err
  chart := fun _ _ => ""

/-! ### Helper lemmas about the standalone-word scanner and the gate -/

/-- Appending a character to a list makes it the `lastO` value. -/
theorem lastO_concat (u : List Char) (c : Char) :
    ∀ prev, lastO (u ++ [c]) prev = some c := by
  induction u with
  | nil => intro prev; rfl
  | cons x xs ih => intro prev; exact ih (some x)

/-- If `kw` matches at the start of `b` with the correct left boundary, then the
scan of `a ++ b` finds it. -/
theorem scanFrom_extend (kw b : List Char) :
    ∀ (a : List Char) (prev : Option Char),
      matchHere kw b (lastO a prev) = true → scanFrom kw prev (a ++ b) = true := by
  intro a
  induction a with
  | nil =>
    intro prev h
    cases b with
    | nil => simpa [scanFrom] using h
    | cons c cs =>
      show scanFrom kw prev (c :: cs) = true
      simp only [scanFrom, Bool.or_eq_true]
      exact Or.inl h
  | cons x xs ih =>
    intro prev h
    have h2 : matchHere kw b (lastO xs (some x)) = true := h
    have := ih (some x) h2
    show scanFrom kw prev (x :: (xs ++ b)) = true
    simp only [scanFrom, Bool.or_eq_true]
    exact Or.inr this

/-- A positive Python substring test yields an explicit decomposition. -/
theorem containsL_split {s pat : List Char} (h : containsL s pat = true) :
    ∃ a b, s = a ++ pat ++ b := by
  induction s with
  | nil =>
    refine ⟨[], [], ?_⟩
    simp only [containsL, List.isEmpty_iff] at h
    simp [h]
  | cons c cs ih =>
    simp only [containsL, Bool.or_eq_true] at h
    rcases h with h | h
    · obtain ⟨t, ht⟩ := List.isPrefixOf_iff_prefix.mp h
      exact ⟨[], t, by simp [← ht]⟩
    · obtain ⟨a, b, hab⟩ := ih h
      exact ⟨c :: a, b, by simp [hab]⟩

/-- Cancelling a final singleton on both sides of an append equation. -/
theorem concat_eq_concat {α : Type} {x y : List α} {c d : α}
    (h : x ++ [c] = y ++ [d]) : x = y ∧ c = d := by
  have h2 := List.append_inj' h (by simp)
  exact ⟨h2.1, by simpa using h2.2⟩

/-- An occurrence of the space-wrapped keyword inside the space-wrapped text
decomposes the text with space (or end) boundaries on both sides. -/
theorem wrapped_split {kw s : List Char}
    (h : (' ' :: (kw ++ [' '])) <:+: (' ' :: (s ++ [' ']))) :
    ∃ a b, s = a ++ kw ++ b
      ∧ (lastO a none = none ∨ lastO a none = some ' ')
      ∧ (b.head? = none ∨ b.head? = some ' ') := by
  obtain ⟨u, v, huv⟩ := h
  cases u with
  | nil =>
    simp only [List.nil_append, List.cons_append, List.cons.injEq] at huv
    rcases List.eq_nil_or_concat v with hv | ⟨L, c, hv⟩
    · subst hv
      have h2 : kw ++ [' '] = s ++ [' '] := by simpa using huv.2
      have h3 := concat_eq_concat h2
      exact ⟨[], [], by simp [h3.1], Or.inl rfl, Or.inl rfl⟩
    · subst hv
      have h2 : (kw ++ (' ' :: L)) ++ [c] = s ++ [' '] := by
        simpa [List.concat_eq_append, List.append_assoc] using huv.2
      have h3 := concat_eq_concat h2
      refine ⟨[], ' ' :: L, by simp [← h3.1], Or.inl rfl, Or.inr rfl⟩
  | cons u0 u1 =>
    simp only [List.cons_append, List.cons.injEq] at huv
    rcases List.eq_nil_or_concat v with hv | ⟨L, c, hv⟩
    · subst hv
      have h2 : (u1 ++ (' ' :: kw)) ++ [' '] = s ++ [' '] := by
        simpa [List.append_assoc] using huv.2
      have h3 := concat_eq_concat h2
      refine ⟨u1 ++ [' '], [], ?_, Or.inr (lastO_concat u1 ' ' none), Or.inl rfl⟩
      simp [← h3.1, List.append_assoc]
    · subst hv
      have h2 : (u1 ++ (' ' :: (kw ++ (' ' :: L)))) ++ [c] = s ++ [' '] := by
        simpa [List.concat_eq_append, List.append_assoc] using huv.2
      have h3 := concat_eq_concat h2
      refine ⟨u1 ++ [' '], ' ' :: L, ?_, Or.inr (lastO_concat u1 ' ' none), Or.inr rfl⟩
      simp [← h3.1, List.append_assoc]

/-- Completeness of the scanner against the gate's test: whenever the gate's
per-keyword test fires, the keyword occurs as a standalone word (space and
text-end boundaries are never identifier characters). -/
theorem standalone_of_gateHit {clean kw : List Char}
    (h : gateHit clean kw = true) : standaloneWord kw clean = true := by
  have space_ok : boundaryOk (some ' ') = true := by decide
  simp only [gateHit, Bool.or_eq_true] at h
  rcases h with h1 | h2
  · obtain ⟨a, b, hab⟩ := containsL_split h1
    have hinf : (' ' :: (kw ++ [' '])) <:+: (' ' :: (clean ++ [' '])) := ⟨a, b, hab.symm⟩
    obtain ⟨a2, b2, hs, hA, hB⟩ := wrapped_split hinf
    have hm : matchHere kw (kw ++ b2) (lastO a2 none) = true := by
      simp only [matchHere, Bool.and_eq_true, decide_eq_true_eq]
      refine ⟨⟨List.prefix_append _ _, ?_⟩, ?_⟩
      · rcases hA with hA | hA <;> rw [hA]
        · rfl
        · exact space_ok
      · rw [List.drop_left]
        rcases hB with hB | hB <;> rw [hB]
        · rfl
        · exact space_ok
    have := scanFrom_extend kw (kw ++ b2) a2 none hm
    unfold standaloneWord
    rw [hs]
    simpa [List.append_assoc] using this
  · obtain ⟨t, ht⟩ := List.isPrefixOf_iff_prefix.mp h2
    have hm : matchHere kw (kw ++ (' ' :: t)) (lastO [] none) = true := by
      simp only [matchHere, Bool.and_eq_true, decide_eq_true_eq]
      refine ⟨⟨List.prefix_append _ _, rfl⟩, ?_⟩
      rw [List.drop_left]
      exact space_ok
    have := scanFrom_extend kw (kw ++ (' ' :: t)) [] none hm
    unfold standaloneWord
    rw [← ht]
    simpa [List.append_assoc] using this

/-- Inserting into a dict under a fresh key makes the key retrievable. -/
theorem cacheGet_cachePut_self (c : Cache) (q : String) (e : CacheEntry)
    (h : cacheGet c q = none) : cacheGet (cachePut c q e) q = some e := by
  have hfind : c.find? (fun p => p.1 == q) = none := by
    cases hf : c.find? (fun p => p.1 == q) with
    | none => rfl
    | some p => rw [cacheGet, hf] at h; simp at h
  have hany : (c.any (fun p => p.1 == q)) = false := by
    cases ha : c.any (fun p => p.1 == q) with
    | false => rfl
    | true =>
      obtain ⟨p, hp, hpq⟩ := List.any_eq_true.mp ha
      have := List.find?_eq_none.mp hfind p hp
      rw [hpq] at this
      simp at this
  rw [cachePut, hany]
  simp only [Bool.false_eq_true, if_false]
  rw [cacheGet, List.find?_append, hfind]
  simp

/-! ### Claim theorems -/

/-- C2 (counterexample): the claim includes `add` among the deny-listed verbs,
but `FORBIDDEN_KEYWORDS` in src/app/chains.py line 41 does not contain `ADD`:
the query `"add 5 to every account balance"`, which contains `add` as a
standalone word (indeed as the very first token), is authorized by the Safety
Gate and passed to the database, not rejected. -/
theorem c2_add_keyword_not_denied :
    gateCheck "add 5 to every account balance" = none
      ∧ safeToolRun (fun _ => "[(0,)]") "add 5 to every account balance" = "[(0,)]"
      ∧ standaloneWord "ADD".data (cleanQuery "add 5 to every account balance") = true := by
  refine ⟨by decide, by decide, by decide⟩

/-- C2 (amended): for every candidate query that contains one of the nine
deny-listed verbs (drop, delete, update, insert, grant, revoke, alter,
truncate, create — `add` is not on the list) as a space-delimited standalone
word of the trimmed uppercased query text (the text's start and end count as
delimiters), the Safety Gate rejects the query and reports a deny-listed
keyword as the reason, regardless of the Classifier's verdict. -/
theorem c2_gate_rejects_space_delimited_keyword (q kw : String)
    (h1 : kw ∈ FORBIDDEN_KEYWORDS)
    (h2 : containsL (' ' :: (cleanQuery q ++ [' '])) (' ' :: (kw.data ++ [' '])) = true) :
    ∃ kw2 ∈ FORBIDDEN_KEYWORDS, gateCheck q = some kw2
      ∧ ∀ dbf, safeToolRun dbf q = rejectionMsg kw2 := by
  have hhit : gateHit (cleanQuery q) kw.data = true := by
    simp only [gateHit, Bool.or_eq_true]
    exact Or.inl h2
  have hsome : (FORBIDDEN_KEYWORDS.find? (fun k => gateHit (cleanQuery q) k.data)).isSome := by
    rw [List.find?_isSome]
    exact ⟨kw, h1, hhit⟩
  obtain ⟨kw2, hk2⟩ := Option.isSome_iff_exists.mp hsome
  refine ⟨kw2, List.mem_of_find?_eq_some hk2, hk2, fun dbf => ?_⟩
  show safeToolRun dbf q = rejectionMsg kw2
  rw [safeToolRun]
  have : gateCheck q = some kw2 := hk2
  rw [this]

/-- C2 (witness): the theorem applied to `"select 1; drop table users"` and the
keyword `DROP`. -/
theorem c2_gate_rejects_space_delimited_keyword_witness :
    "DROP" ∈ FORBIDDEN_KEYWORDS
      ∧ containsL (' ' :: (cleanQuery "select 1; drop table users" ++ [' ']))
          (' ' :: ("DROP".data ++ [' '])) = true
      ∧ ∃ kw2 ∈ FORBIDDEN_KEYWORDS, gateCheck "select 1; drop table users" = some kw2
          ∧ ∀ dbf, safeToolRun dbf "select 1; drop table users" = rejectionMsg kw2 :=
  ⟨by decide, by decide,
    c2_gate_rejects_space_delimited_keyword "select 1; drop table users" "DROP"
      (by decide) (by decide)⟩

/-- C5: every candidate query free of deny-listed tokens as standalone words
(no deny-listed keyword occurs in the trimmed uppercased text flanked by
non-identifier characters or the text's ends) is authorized by the Safety
Gate, and the tool then runs it against the database.  In particular a
deny-listed verb occurring only inside an identifier (a character such as
`_` or a letter on its flank) never triggers rejection. -/
theorem c5_gate_authorizes_standalone_free (q : String)
    (h : ∀ kw ∈ FORBIDDEN_KEYWORDS, standaloneWord kw.data (cleanQuery q) = false) :
    gateCheck q = none ∧ ∀ dbf, safeToolRun dbf q = dbf q := by
  have hg : gateCheck q = none := by
    cases hc : gateCheck q with
    | none => rfl
    | some kw =>
      unfold gateCheck at hc
      have hhit : gateHit (cleanQuery q) kw.data = true := by
        simpa using List.find?_some hc
      have hmem : kw ∈ FORBIDDEN_KEYWORDS := List.mem_of_find?_eq_some hc
      have htrue := standalone_of_gateHit hhit
      rw [h kw hmem] at htrue
      exact absurd htrue (by simp)
  refine ⟨hg, fun dbf => ?_⟩
  rw [safeToolRun, hg]

/-- C5 (witness): `"SELECT updated_at FROM created_orders"` contains `UPDATE`
and `CREATE` only as identifier substrings; the gate authorizes it and the
tool executes it. -/
theorem c5_gate_authorizes_standalone_free_witness :
    (∀ kw ∈ FORBIDDEN_KEYWORDS,
        standaloneWord kw.data (cleanQuery "SELECT updated_at FROM created_orders") = false)
      ∧ gateCheck "SELECT updated_at FROM created_orders" = none
      ∧ safeToolRun (fun _ => "[(1,)]") "SELECT updated_at FROM created_orders" = "[(1,)]" := by
  have h := c5_gate_authorizes_standalone_free "SELECT updated_at FROM created_orders" (by decide)
  exact ⟨by decide, h.1, h.2 _⟩

/-- C1: on the `data_query` path the handler of src/app/api.py executes the
generated SQL directly through `db.run` (line 34) without ever submitting it
to the Safety Gate (`SafeQuerySQLDataBaseTool` is wired only into the
descriptive agent's tools): with the Classifier answering `data_query` and the
synthesizer emitting `DELETE FROM orders`, the database is invoked with that
string even though the gate rejects it.  (`main.py` in the same repository
routes this very path through `safe_sql_tool.invoke`, line 353.) -/
theorem c1_ungated_sql_reaches_database :
    c1Oracle.classify "show my orders" = Except.ok (some "data_query")
      ∧ gateCheck "DELETE FROM orders" = some "DELETE"
      ∧ Call.dbRun "DELETE FROM orders" ∈
          (handle_get_insight c1Oracle ordersSchema [] "show my orders").2.2 := by
  refine ⟨rfl, by decide, by decide⟩

/-- C3: for every question the Classifier labels `destructive_request`, the
handler short-circuits (api.py lines 28–30): the response is the blocked
envelope with `sql = "BLOCKED"`, `data = []`, `chartType = "none"` and a
non-null `error`; the cache is untouched and the trace contains only the
classification call — no query synthesis, no database access, no agent. -/
theorem c3_destructive_short_circuit (o : Oracle) (schema : Schema) (cache : Cache)
    (q : String) (h : o.classify q = Except.ok (some "destructive_request")) :
    (handle_get_insight o schema cache q).1 = blockedEnvelope q
      ∧ (handle_get_insight o schema cache q).2.1 = cache
      ∧ (handle_get_insight o schema cache q).2.2 = [Call.llmClassify]
      ∧ respGet (handle_get_insight o schema cache q).1 "sql" = some (RVal.str "BLOCKED")
      ∧ respGet (handle_get_insight o schema cache q).1 "data" = some (RVal.rows [])
      ∧ respGet (handle_get_insight o schema cache q).1 "chartType" = some (RVal.str "none")
      ∧ respGet (handle_get_insight o schema cache q).1 "error" = some (RVal.str blockedMsg)
      ∧ (∀ s, Call.dbRun s ∉ (handle_get_insight o schema cache q).2.2)
      ∧ (∀ s, Call.dbExec s ∉ (handle_get_insight o schema cache q).2.2)
      ∧ Call.llmGenSql ∉ (handle_get_insight o schema cache q).2.2
      ∧ Call.agentInvoke ∉ (handle_get_insight o schema cache q).2.2 := by
  have hh : handle_get_insight o schema cache q = (blockedEnvelope q, cache, [Call.llmClassify]) := by
    unfold handle_get_insight
    rw [h]
    simp
  rw [hh]
  refine ⟨rfl, rfl, rfl, rfl, rfl, rfl, rfl, ?_, ?_, by simp, by simp⟩
  · intro s
    simp
  · intro s
    simp

/-- C3 (witness): the theorem applied to the question `"drop the orders table"`
under `c3Oracle`. -/
theorem c3_destructive_short_circuit_witness :
    c3Oracle.classify "drop the orders table" = Except.ok (some "destructive_request")
      ∧ (handle_get_insight c3Oracle ordersSchema [] "drop the orders table").1 =
          blockedEnvelope "drop the orders table"
      ∧ (handle_get_insight c3Oracle ordersSchema [] "drop the orders table").2.2 =
          [Call.llmClassify] :=
  ⟨rfl, (c3_destructive_short_circuit c3Oracle ordersSchema [] "drop the orders table" rfl).1,
    (c3_destructive_short_circuit c3Oracle ordersSchema [] "drop the orders table" rfl).2.2.1⟩

/-- C4 (counterexample): when the classification output parses but carries an
intent label outside the three expected ones (here `"banana"`), the handler
does not abort: the `else` branch of api.py line 63 treats it as a descriptive
question, invokes the agent, and returns a success envelope with a null
`error` field — contradicting the claim that non-conforming classification
never proceeds down any execution path. -/
theorem c4_unknown_label_takes_agent_path :
    c4Oracle.classify "hello" = Except.ok (some "banana")
      ∧ Call.agentInvoke ∈ (handle_get_insight c4Oracle ordersSchema [] "hello").2.2
      ∧ respGet (handle_get_insight c4Oracle ordersSchema [] "hello").1 "error" =
          some RVal.null := by
  refine ⟨rfl, by decide, by decide⟩

/-- C4 (amended): when the classification call itself fails (the model output
cannot be parsed), the handler fails closed: it aborts with the explicit error
envelope, performs no query synthesis, no database access and no agent
invocation, and in particular does not default to `data_query`; but a
successfully parsed output whose label is none of the three intents is routed
to the descriptive-agent path rather than aborting. -/
theorem c4_classification_error_fails_closed (o : Oracle) (schema : Schema) (cache : Cache)
    (q e : String) (h : o.classify q = Except.error e) :
    (handle_get_insight o schema cache q).1 = errEnvelope q "N/A" (pyErrMsg e)
      ∧ (handle_get_insight o schema cache q).2.2 = [Call.llmClassify]
      ∧ respGet (handle_get_insight o schema cache q).1 "error" = some (RVal.str (pyErrMsg e))
      ∧ Call.llmGenSql ∉ (handle_get_insight o schema cache q).2.2
      ∧ Call.agentInvoke ∉ (handle_get_insight o schema cache q).2.2
      ∧ (∀ s, Call.dbRun s ∉ (handle_get_insight o schema cache q).2.2) := by
  have hh : handle_get_insight o schema cache q =
      (errEnvelope q "N/A" (pyErrMsg e), cache, [Call.llmClassify]) := by
    unfold handle_get_insight
    rw [h]
  rw [hh]
  refine ⟨rfl, rfl, rfl, by simp, by simp, ?_⟩
  intro s
  simp

/-- C4 (witness): the amended theorem applied to `c4ErrOracle`, whose
classification raises on every question. -/
theorem c4_classification_error_fails_closed_witness :
    c4ErrOracle.classify "show revenue" = Except.error "Invalid json output"
      ∧ (handle_get_insight c4ErrOracle ordersSchema [] "show revenue").1 =
          errEnvelope "show revenue" "N/A" (pyErrMsg "Invalid json output")
      ∧ (handle_get_insight c4ErrOracle ordersSchema [] "show revenue").2.2 =
          [Call.llmClassify] :=
  ⟨rfl,
    (c4_classification_error_fails_closed c4ErrOracle ordersSchema [] "show revenue"
      "Invalid json output" rfl).1,
    (c4_classification_error_fails_closed c4ErrOracle ordersSchema [] "show revenue"
      "Invalid json output" rfl).2.1⟩

/-- C6 (counterexample): the pipeline is not idempotent for every question and
the cache is not keyed per intent category.  For a `data_query` question, a
second invocation with the identical string performs a full second round-trip:
the trace of the second call still contains the `db.run` invocation (and the
SQL-synthesis LLM call) — only the descriptive path consults a cache
(api.py lines 63–77), and `DESCRIPTIVE_CACHE` is keyed by the bare question
string. -/
theorem c6_repeat_data_query_hits_database_again :
    c6Oracle.classify "show me total sales by month" = Except.ok (some "data_query")
      ∧ Call.dbRun "SELECT month, sales FROM monthly_sales" ∈
          (handle_get_insight c6Oracle ordersSchema
            (handle_get_insight c6Oracle ordersSchema [] "show me total sales by month").2.1
            "show me total sales by month").2.2
      ∧ Call.llmGenSql ∈
          (handle_get_insight c6Oracle ordersSchema
            (handle_get_insight c6Oracle ordersSchema [] "show me total sales by month").2.1
            "show me total sales by month").2.2 := by
  refine ⟨rfl, by decide, by decide⟩

/-- C6 (amended): only the descriptive path is cached, keyed by the exact
question string alone (not per intent category).  For a question routed to the
descriptive path whose first call succeeds, a second call with the identical
string returns the identical response, leaves the cache unchanged, and does
not re-invoke the agent — but it still performs the classification and
chart-recommendation LLM round-trips. -/
theorem c6_descriptive_repeat_served_from_cache (o : Oracle) (schema : Schema) (c0 : Cache)
    (q : String) (intent : Option String) (out : Option String)
    (h1 : o.classify q = Except.ok intent)
    (h2 : (intent == some "destructive_request") = false)
    (h3 : (intent == some "data_query") = false)
    (h4 : cacheGet c0 q = none)
    (h5 : o.agent q = Except.ok out) :
    (handle_get_insight o schema (handle_get_insight o schema c0 q).2.1 q).1 =
        (handle_get_insight o schema c0 q).1
      ∧ (handle_get_insight o schema (handle_get_insight o schema c0 q).2.1 q).2.1 =
          (handle_get_insight o schema c0 q).2.1
      ∧ (handle_get_insight o schema (handle_get_insight o schema c0 q).2.1 q).2.2 =
          [Call.llmClassify, Call.llmChart]
      ∧ Call.agentInvoke ∈ (handle_get_insight o schema c0 q).2.2 := by
  have hfirst : handle_get_insight o schema c0 q =
      (successEnvelope q "N/A" [] (out.getD "") []
         (get_ai_chart_recommendation (o.chart q [])) emptyAxes,
       cachePut c0 q ⟨out.getD "", []⟩,
       [Call.llmClassify, Call.agentInvoke, Call.llmChart]) := by
    unfold handle_get_insight
    rw [h1]
    simp only [h2, h3, Bool.false_eq_true, if_false]
    unfold descriptivePath
    rw [h4, h5]
  have hsecond : handle_get_insight o schema (cachePut c0 q ⟨out.getD "", []⟩) q =
      (successEnvelope q "N/A" [] (out.getD "") []
         (get_ai_chart_recommendation (o.chart q [])) emptyAxes,
       cachePut c0 q ⟨out.getD "", []⟩,
       [Call.llmClassify, Call.llmChart]) := by
    unfold handle_get_insight
    rw [h1]
    simp only [h2, h3, Bool.false_eq_true, if_false]
    unfold descriptivePath
    rw [cacheGet_cachePut_self c0 q _ h4]
  rw [hfirst]
  simp only []
  rw [hsecond]
  refine ⟨rfl, rfl, rfl, by simp⟩

/-- C6 (witness): the amended theorem applied to a descriptive question under
`c6DescOracle`, starting from the empty cache. -/
theorem c6_descriptive_repeat_served_from_cache_witness :
    c6DescOracle.classify "what tables are there" = Except.ok (some "descriptive_question")
      ∧ cacheGet [] "what tables are there" = none
      ∧ c6DescOracle.agent "what tables are there" =
          Except.ok (some "There are two tables: orders and users.")
      ∧ (handle_get_insight c6DescOracle ordersSchema
            (handle_get_insight c6DescOracle ordersSchema [] "what tables are there").2.1
            "what tables are there").1 =
          (handle_get_insight c6DescOracle ordersSchema [] "what tables are there").1
      ∧ (handle_get_insight c6DescOracle ordersSchema
            (handle_get_insight c6DescOracle ordersSchema [] "what tables are there").2.1
            "what tables are there").2.2 = [Call.llmClassify, Call.llmChart] :=
  ⟨rfl, rfl, rfl,
    (c6_descriptive_repeat_served_from_cache c6DescOracle ordersSchema [] "what tables are there"
      (some "descriptive_question") (some "There are two tables: orders and users.")
      rfl (by decide) (by decide) rfl rfl).1,
    (c6_descriptive_repeat_served_from_cache c6DescOracle ordersSchema [] "what tables are there"
      (some "descriptive_question") (some "There are two tables: orders and users.")
      rfl (by decide) (by decide) rfl rfl).2.2.1⟩

/-- C7: in a known originating table whose `total_amount` column has declared
type `REAL` (so `get_column_type` returns `"real"`), the value `1234567.8` in
`total_amount` is rendered `"$1,234,568"` (rounded to the nearest whole unit,
`$` symbol, thousands separators); the same value in a column named `quantity`
passes through unchanged (for every cell value), and non-numeric cells
(strings, nulls) are never reformatted in any column of any table. -/
theorem c7_currency_formatting (schema : Schema) (t : String)
    (ht : t ≠ "") (hty : get_column_type schema t "total_amount" = "real") :
    formatCell schema (some t) "total_amount" (Cell.f (1234567.8 : ℚ)) = Cell.s "$1,234,568"
      ∧ (∀ w, formatCell schema (some t) "quantity" w = w)
      ∧ (∀ tbl k sv, formatCell schema tbl k (Cell.s sv) = Cell.s sv)
      ∧ (∀ tbl k, formatCell schema tbl k Cell.null = Cell.null) := by
  have hval : format_currency (1234567.8 : ℚ) = "$1,234,568" := by
    with_unfolding_all decide
  have hcur : is_currency_column_smart schema "total_amount" (some t) = true := by
    simp only [is_currency_column_smart]
    rw [if_neg ht]
    unfold smartCheck
    rw [hty]
    decide
  have hq : is_currency_column_smart schema "quantity" (some t) = false := by
    simp only [is_currency_column_smart]
    rw [if_neg ht]
    unfold smartCheck
    have hks : smartKeywords.any (fun w => containsL (toLowerL "quantity".data) w.data) = false := by
      decide
    rw [hks, Bool.and_false]
  refine ⟨?_, ?_, ?_, ?_⟩
  · simp [formatCell, hcur, asNum, hval]
  · intro w
    simp [formatCell, hq]
  · intro tbl k sv
    cases hcc : is_currency_column_smart schema k tbl <;> simp [formatCell, hcc, asNum]
  · intro tbl k
    cases hcc : is_currency_column_smart schema k tbl <;> simp [formatCell, hcc, asNum]

/-- C7 (witness): the theorem applied to `ordersSchema` and the table `orders`. -/
theorem c7_currency_formatting_witness :
    ("orders" ≠ "")
      ∧ get_column_type ordersSchema "orders" "total_amount" = "real"
      ∧ formatCell ordersSchema (some "orders") "total_amount" (Cell.f (1234567.8 : ℚ)) =
          Cell.s "$1,234,568"
      ∧ formatCell ordersSchema (some "orders") "quantity" (Cell.f (1234567.8 : ℚ)) =
          Cell.f (1234567.8 : ℚ)
      ∧ formatCell ordersSchema (some "orders") "total_amount" (Cell.s "n/a") = Cell.s "n/a" :=
  ⟨by decide, by decide,
    (c7_currency_formatting ordersSchema "orders" (by decide) (by decide)).1,
    (c7_currency_formatting ordersSchema "orders" (by decide) (by decide)).2.1 _,
    (c7_currency_formatting ordersSchema "orders" (by decide) (by decide)).2.2.1 _ _ _⟩

/-- C8 (counterexample): with a single-column result (`["month"]`) and a failed
axis-title generation, the fallback is `{"x": "month", "y": "Y"}` — the `y`
title is the placeholder `"Y"`, not the empty string the claim requires for a
result with fewer than two columns (and with no columns at all the fallback is
`{"x": "X", "y": "Y"}`, not empty strings). -/
theorem c8_single_column_fallback_not_empty :
    get_axis_titles_llm AxisOutcome.err ["month"] = [("x", "month"), ("y", "Y")]
      ∧ get_axis_titles_llm AxisOutcome.err ["month"] ≠ [("x", "month"), ("y", "")]
      ∧ get_axis_titles_llm AxisOutcome.err [] = [("x", "X"), ("y", "Y")] := by
  refine ⟨by decide, by decide, by decide⟩

/-- C8 (amended): whenever axis-title generation fails entirely (the LLM call
raises, the parsed response is not a dict, or the dict lacks the `x` or `y`
key), the returned titles are the first and second column names of the result
set, with the placeholders `"X"` and `"Y"` substituted for missing columns
(not empty strings). -/
theorem c8_axis_fallback_uses_column_names (outcome : AxisOutcome) (columns : List String)
    (h : axisFailed outcome = true) :
    get_axis_titles_llm outcome columns =
      [("x", columns.getD 0 "X"), ("y", columns.getD 1 "Y")] := by
  cases outcome with
  | err => rfl
  | nonObj => rfl
  | obj d =>
    simp only [axisFailed, Bool.not_eq_true'] at h
    simp [get_axis_titles_llm, h, axisFallback]

/-- C8 (witness): the amended theorem applied to a dict response missing the
`y` key, over a two-column result. -/
theorem c8_axis_fallback_uses_column_names_witness :
    axisFailed (AxisOutcome.obj [("x", "Month")]) = true
      ∧ get_axis_titles_llm (AxisOutcome.obj [("x", "Month")]) ["month", "sales"] =
          [("x", "month"), ("y", "sales")] :=
  ⟨by decide,
    c8_axis_fallback_uses_column_names (AxisOutcome.obj [("x", "Month")]) ["month", "sales"]
      (by decide)⟩

/-- C9 (counterexample): the blocked-destructive response does not have the
same field set as a success response: it lacks `bullets` and `axisTitles`
(api.py line 30 versus lines 84–93), so callers cannot rely on a single
envelope shape containing those fields. -/
theorem c9_blocked_envelope_missing_fields :
    respKeys (handle_get_insight c9Oracle ordersSchema [] "drop the orders table").1 = shortKeys
      ∧ "bullets" ∉ respKeys (handle_get_insight c9Oracle ordersSchema [] "drop the orders table").1
      ∧ "axisTitles" ∉
          respKeys (handle_get_insight c9Oracle ordersSchema [] "drop the orders table").1
      ∧ successKeys ≠ shortKeys := by
  refine ⟨by decide, by decide, by decide, by decide⟩

/-- C9 (amended): every response of the handler has one of exactly two field
sets: the eight-field success envelope (with `bullets` and `axisTitles`), or
the six-field envelope shared by the blocked-destructive and failure responses
(without `bullets` and `axisTitles`); the six common fields appear in the same
order in both. -/
theorem c9_envelope_two_shapes (o : Oracle) (schema : Schema) (cache : Cache) (q : String) :
    respKeys (handle_get_insight o schema cache q).1 = successKeys
      ∨ respKeys (handle_get_insight o schema cache q).1 = shortKeys := by
  unfold handle_get_insight dataPath descriptivePath
  repeat' split
  all_goals simp [respKeys, successEnvelope, errEnvelope, blockedEnvelope, successKeys, shortKeys]

/-- C10: in any column that the currency heuristic marks as monetary, a Python
boolean row value is treated as numeric (`bool` is a subclass of `int`, so it
passes the `isinstance(v, (int, float))` guard of api.py line 49): `True`
renders as `"$1"` and `False` as `"$0"` instead of passing through unchanged. -/
theorem c10_bool_currency_formatted (schema : Schema) (tbl : Option String) (k : String)
    (h : is_currency_column_smart schema k tbl = true) :
    formatCell schema tbl k (Cell.b true) = Cell.s "$1"
      ∧ formatCell schema tbl k (Cell.b false) = Cell.s "$0" := by
  have h1 : format_currency (1 : ℚ) = "$1" := by with_unfolding_all decide
  have h0 : format_currency (0 : ℚ) = "$0" := by with_unfolding_all decide
  constructor <;> simp [formatCell, h, asNum, h1, h0]

/-- C10 (witness): the theorem applied to the `total_amount` column of
`ordersSchema`. -/
theorem c10_bool_currency_formatted_witness :
    is_currency_column_smart ordersSchema "total_amount" (some "orders") = true
      ∧ formatCell ordersSchema (some "orders") "total_amount" (Cell.b true) = Cell.s "$1"
      ∧ formatCell ordersSchema (some "orders") "total_amount" (Cell.b false) = Cell.s "$0" :=
  ⟨by decide,
    (c10_bool_currency_formatted ordersSchema (some "orders") "total_amount" (by decide)).1,
    (c10_bool_currency_formatted ordersSchema (some "orders") "total_amount" (by decide)).2⟩
